import Mathlib

/-!
Verification development for the BooksToScrape scraping repository
(phase1 single-book scraper, phase2 category crawler, utils CSV saver).

The Python sources are shallowly embedded: network transport, the HTML
parser and `urllib.parse.urljoin` are external collaborators and appear as
parameters or abstract data; every piece of repository logic (the pagination
loop, the link rewriting, the field extraction, the regular-expression
match, the CSV-saving control flow) is translated faithfully from the
source files.
-/

namespace Scraping

/-! ## Phase 2: category crawler (`src/phase2/scraper_category.py`) -/

/-- Python `s.replace("../", "")` on a character list: scan left to right,
drop each non-overlapping occurrence of `../`, never rescan earlier output. -/
def removeDotDotAux : List Char → List Char
  | '.' :: '.' :: '/' :: rest => removeDotDotAux rest
  | c :: rest => c :: removeDotDotAux rest
  | [] => []

/-- `relative_url.replace("../", "")` from `fetch_category_urls`. -/
def removeDotDot (s : String) : String :=
  String.mk (removeDotDotAux s.data)

/-- The fixed catalog-root prefix hardcoded in `fetch_category_urls`. -/
def catalogueRoot : String := "https://books.toscrape.com/catalogue/"

/-- One parsed category listing page: for each `article.product_pod` node,
`some href` when `article.find("h3").find("a")["href"]` succeeds and `none`
when that extraction raises; plus the href of the `li.next` link if present. -/
structure CatPage where
  articles : List (Option String)
  nextHref : Option String
deriving DecidableEq

/-- An HTTP response for a listing page, already parsed: the status code
(checked by `response.raise_for_status()`) and the parsed page. -/
structure CatResponse where
  status : Nat
  page : CatPage
deriving DecidableEq

/-- The transport: `session.get(url, timeout=10)`, either a response or a
raised `requests.RequestException` message. -/
abbrev Transport := String → Except String CatResponse

/-- Message of the `requests.exceptions.HTTPError` raised by
`raise_for_status` on a 4xx or 5xx status (text modelled abstractly). -/
def httpStatusError (status : Nat) (url : String) : String :=
  toString status ++ " Error for url: " ++ url

/-- The URLs collected from one listing page, in document order:
`"https://books.toscrape.com/catalogue/" + href.replace("../", "")` for each
article whose link extraction succeeds; failing articles are skipped
(the code logs a warning and continues). -/
def pageItemUrls (p : CatPage) : List String :=
  p.articles.filterMap (fun a => a.map (fun href => catalogueRoot ++ removeDotDot href))

/-- Outcome of the pagination loop: normal return of the URL list, a raised
`RuntimeError`, or exhaustion of the fuel that makes the unbounded
`while True` loop a total function. -/
inductive CrawlResult where
  | ok (urls : List String)
  | err (msg : String)
  | fuelOut
deriving DecidableEq

/-- The body of `fetch_category_urls`: the `while True` loop with the
accumulated `urls` list, fuelled. Each iteration fetches `currentUrl`,
raises on transport error or 4xx/5xx status, raises if no article is found,
appends the item URLs, and follows the `li.next` link (resolved by
`urljoin`, passed in as the external collaborator `join`) or breaks. -/
def crawlAux (transport : Transport) (join : String → String → String) :
    Nat → String → List String → CrawlResult
  | 0, _, _ => .fuelOut
  | fuel + 1, currentUrl, acc =>
    match transport currentUrl with
    | .error e =>
        .err ("[ERREUR HTTP] Impossible de récupérer la page " ++ currentUrl ++ " : " ++ e)
    | .ok r =>
        if 400 ≤ r.status ∧ r.status < 600 then
          .err ("[ERREUR HTTP] Impossible de récupérer la page " ++ currentUrl ++ " : " ++
            httpStatusError r.status currentUrl)
        else if r.page.articles.isEmpty then
          .err ("[ERREUR PARSING] Aucun article trouvé sur la page : " ++ currentUrl)
        else
          match r.page.nextHref with
          | some h => crawlAux transport join fuel (join currentUrl h) (acc ++ pageItemUrls r.page)
          | none => .ok (acc ++ pageItemUrls r.page)

/-- `fetch_category_urls(category_url, session)`: run the pagination loop
starting from the category URL with an empty accumulator. -/
def fetch_category_urls (transport : Transport) (join : String → String → String)
    (fuel : Nat) (categoryUrl : String) : CrawlResult :=
  crawlAux transport join fuel categoryUrl []

/-- The chain of listing pages a crawl traverses: fetching the URL succeeds
with a status that passes `raise_for_status`, and the chain continues through
the `urljoin`-resolved `next` href until a page carries no `next` link. -/
inductive PageChain (t : Transport) (j : String → String → String) : String → List CatPage → Prop
  | last (u : String) (r : CatResponse) :
      t u = Except.ok r → ¬(400 ≤ r.status ∧ r.status < 600) → r.page.nextHref = none →
      PageChain t j u [r.page]
  | step (u : String) (r : CatResponse) (h : String) (ps : List CatPage) :
      t u = Except.ok r → ¬(400 ≤ r.status ∧ r.status < 600) → r.page.nextHref = some h →
      PageChain t j (j u h) ps →
      PageChain t j u (r.page :: ps)

/-- First listing page of a small concrete category site. -/
def catPage1 : CatPage :=
  { articles := [some "../a_1/index.html", some "../b_2/index.html"],
    nextHref := some "page-2.html" }

/-- Second and final listing page of the concrete category site. -/
def catPage2 : CatPage :=
  { articles := [some "../c_3/index.html"], nextHref := none }

/-- A concrete two-page category site. -/
def twoPageSite : Transport := fun u =>
  if u = "mystery_3/index.html" then Except.ok { status := 200, page := catPage1 }
  else if u = "page-2.html" then Except.ok { status := 200, page := catPage2 }
  else Except.error "connection refused"

/-- A fixed response whose page always offers a `next` link. -/
def loopResponse : CatResponse :=
  { status := 200,
    page := { articles := [some "a_1/index.html"], nextHref := some "page-2.html" } }

/-- A concrete site on which every page offers a `next` link. -/
def loopSite : Transport := fun _ => Except.ok loopResponse

/-- A fixed response whose page has no `next` link. -/
def endResponse : CatResponse :=
  { status := 200, page := { articles := [some "b_1/index.html"], nextHref := none } }

/-- A concrete single-page site whose page has no `next` link. -/
def endSite : Transport := fun _ => Except.ok endResponse

/-! ## Phase 1: single-book scraper (`src/phase1/scraper.py`) -/

/-- The Python whitespace class: the characters matched by the regex class
`\s` and stripped by `str.strip()`. -/
def pyIsSpace (c : Char) : Bool :=
  c = ' ' || c = '\t' || c = '\n' || c = '\r' || c = '\x0b' || c = '\x0c'

/-- Python `str.strip()`: drop leading and trailing whitespace. -/
def pyStrip (s : String) : String :=
  String.mk (((s.data.dropWhile pyIsSpace).reverse.dropWhile pyIsSpace).reverse)

/-- Python `str.capitalize()`: first character upper-cased, the remaining
characters lower-cased. -/
def pyCapitalize (s : String) : String :=
  match s.data with
  | [] => ""
  | c :: rest => String.mk (c.toUpper :: rest.map Char.toLower)

/-- Numeric value of a non-empty digit string, as `int()` reads the digits
captured by the regex group `(\d+)`. -/
def digitsToNat (l : List Char) : Nat :=
  l.foldl (fun n c => 10 * n + (c.toNat - '0'.toNat)) 0

/-- Whether the pattern list is an initial segment of the character list. -/
def startsWithChars : List Char → List Char → Bool
  | [], _ => true
  | _ :: _, [] => false
  | p :: ps, c :: cs => p = c && startsWithChars ps cs

/-- Match the regex `\((\d+)\s+available\)` at the head of a character list:
an opening parenthesis, one or more digits (the captured group), one or more
whitespace characters, then the literal `available)`. The greedy `\d+` and
`\s+` need no backtracking because a digit is never whitespace and
whitespace is never the letter `a`. -/
def availMatchHere (l : List Char) : Option Nat :=
  match l with
  | '(' :: rest =>
      let digits := rest.takeWhile Char.isDigit
      let rest2 := rest.dropWhile Char.isDigit
      if digits.isEmpty then none
      else if (rest2.takeWhile pyIsSpace).isEmpty then none
      else if startsWithChars "available)".data (rest2.dropWhile pyIsSpace) then
        some (digitsToNat digits)
      else none
  | _ => none

/-- `re.search`: try the pattern at each position, left to right, and return
the first match. -/
def availSearch : List Char → Option Nat
  | [] => none
  | c :: rest =>
      match availMatchHere (c :: rest) with
      | some n => some n
      | none => availSearch rest

/-- `re.search(r"\((\d+)\s+available\)", s)` with the captured group read by
`int()`. -/
def availMatch (s : String) : Option Nat :=
  availSearch s.data

/-- The `number_available` field: an integer when the availability pattern
matches, otherwise the descriptive sentinel string the code stores in the
same field (mixed-type by design). -/
inductive NumAvail where
  | count (n : Nat)
  | sentinel (s : String)
deriving DecidableEq

/-- `int(match.group(1)) if match else "Nombre non trouvé"` applied to the
availability cell text. -/
def numberAvailOf (availability : String) : NumAvail :=
  match availMatch availability with
  | some n => .count n
  | none => .sentinel "Nombre non trouvé"

/-- `review_rating_map.get(text, 0)`: the fixed lookup table
`Zero/One/Two/Three/Four/Five`, defaulting to 0 on any other key. -/
def review_rating_map : String → Nat
  | "Zero" => 0
  | "One" => 1
  | "Two" => 2
  | "Three" => 3
  | "Four" => 4
  | "Five" => 5
  | _ => 0

/-- The `review_rating` computation: the class list of the `p.star-rating`
node (or `[]` when the node is absent), the first class different from
`star-rating` capitalized (defaulting to `Zero`), sent through the lookup
table. -/
def ratingOf (ratingClasses : Option (List String)) : Nat :=
  let classes := ratingClasses.getD []
  let text := ((classes.find? (fun cls => cls != "star-rating")).map pyCapitalize).getD "Zero"
  review_rating_map text

/-- An exact decimal number: the value `mantissa / 10 ^ exp`. The decimal is
kept unreduced so that the embedding stays kernel-computable; numeric
identity of the prices plays no role in any claim. -/
structure PyFloat where
  mantissa : Int
  exp : Nat
deriving DecidableEq

/-- Python `float()` restricted to what the price cells carry: surrounding
whitespace, an optional sign, decimal digits with at most one point.
Scientific notation, infinities and NaN never occur on the site and are not
modelled; the result is the exact decimal value. -/
def pyFloat (s : String) : Option PyFloat :=
  let t := (pyStrip s).data
  let signAndRest : Int × List Char :=
    match t with
    | '-' :: r => (-1, r)
    | '+' :: r => (1, r)
    | _ => (1, t)
  let sign := signAndRest.1
  let t1 := signAndRest.2
  let ip := t1.takeWhile Char.isDigit
  let r1 := t1.dropWhile Char.isDigit
  match r1 with
  | [] => if ip.isEmpty then none else some { mantissa := sign * digitsToNat ip, exp := 0 }
  | '.' :: r2 =>
      let fp := r2.takeWhile Char.isDigit
      let r3 := r2.dropWhile Char.isDigit
      if r3.isEmpty && (!ip.isEmpty || !fp.isEmpty) then
        some { mantissa := sign * (digitsToNat ip * 10 ^ fp.length + digitsToNat fp : Nat),
               exp := fp.length }
      else none
  | _ => none

/-- `get_table_value(...).replace("£", "")`: every pound sign removed. -/
def stripPound (s : String) : String :=
  String.mk (s.data.filter (fun c => c != '£'))

/-- The parts of a parsed detail page that `extract_book_data` touches.
`table` is the `table.table-striped` node as label/value rows (`none` when
the node is absent; a row's `none` value models a `th` with no `td`
sibling); `titleText` is the `div.product_main h1` text (`none` when the
chain raises); `descriptionSibling` is the paragraph following
`div#product_description` when both exist; `ratingClasses` is the class list
of the first `p.star-rating` node; `breadcrumb` is the `ul.breadcrumb` item
texts; `imageSrc` is the `div.item img` `src` attribute. -/
structure BookSoup where
  table : Option (List (String × Option String))
  titleText : Option String
  descriptionSibling : Option String
  ratingClasses : Option (List String)
  breadcrumb : Option (List String)
  imageSrc : Option String
deriving DecidableEq

/-- `get_table_value(label)`: find the first `th` whose string is exactly
`label`; raise `ValueError` when absent; return the sibling `td` text, or
`"N/A"` when the `td` is missing. Looking up in an absent table raises like
`table.find` on `None` does. -/
def get_table_value (table : Option (List (String × Option String))) (label : String) :
    Except String String :=
  match table with
  | none => .error "AttributeError: NoneType object has no attribute find"
  | some rows =>
      match rows.find? (fun row => row.1 == label) with
      | none => .error ("[ERREUR] champ \x27" ++ label ++ "\x27 introuvable dans le tableau")
      | some row =>
          match row.2 with
          | some td => .ok td
          | none => .ok "N/A"

/-- The record `extract_book_data` builds. Prices are the exact decimals
`float()` produces on the site's price strings. -/
structure ProductData where
  product_page_url : String
  universal_product_code : String
  title : String
  price_including_tax : PyFloat
  price_excluding_tax : PyFloat
  number_available : NumAvail
  product_description : String
  category : String
  review_rating : Nat
  image_url : String
deriving DecidableEq

/-- `extract_book_data(soup, url)`: the extraction steps in the order Python
evaluates them (title heading, availability lookup, then the record literal:
UPC, both prices, breadcrumb category, image). `urljoin` is the external
collaborator `join`. Every raised exception is caught and re-wrapped once
with the source URL. -/
def extract_book_data (join : String → String → String) (soup : BookSoup) (url : String) :
    Except String ProductData :=
  Except.mapError
    (fun e => "[ERREUR] Échec de l\x27extraction depuis " ++ url ++ " : " ++ e)
    (match soup.titleText with
    | none => .error "AttributeError: NoneType object has no attribute find"
    | some title =>
      match get_table_value soup.table "Availability" with
      | .error e => .error e
      | .ok availability =>
        let number_available := numberAvailOf availability
        let product_description := soup.descriptionSibling.getD "N/A"
        let review_rating := ratingOf soup.ratingClasses
        match get_table_value soup.table "UPC" with
        | .error e => .error e
        | .ok upc =>
          match get_table_value soup.table "Price (incl. tax)" with
          | .error e => .error e
          | .ok priceInclRaw =>
            match pyFloat (stripPound priceInclRaw) with
            | none => .error ("ValueError: could not convert string to float: " ++
                stripPound priceInclRaw)
            | some price_including_tax =>
              match get_table_value soup.table "Price (excl. tax)" with
              | .error e => .error e
              | .ok priceExclRaw =>
                match pyFloat (stripPound priceExclRaw) with
                | none => .error ("ValueError: could not convert string to float: " ++
                    stripPound priceExclRaw)
                | some price_excluding_tax =>
                  match soup.breadcrumb with
                  | none => .error "AttributeError: NoneType object has no attribute find_all"
                  | some crumbs =>
                    match crumbs.get? 2 with
                    | none => .error "IndexError: list index out of range"
                    | some third =>
                      match soup.imageSrc with
                      | none => .error "TypeError: NoneType object is not subscriptable"
                      | some src =>
                        .ok { product_page_url := url,
                              universal_product_code := upc,
                              title := title,
                              price_including_tax := price_including_tax,
                              price_excluding_tax := price_excluding_tax,
                              number_available := number_available,
                              product_description := product_description,
                              category := pyStrip third,
                              review_rating := review_rating,
                              image_url := join url src })

/-- The labels `extract_book_data` looks up in the key/value table. -/
def requiredLabels : List String :=
  ["UPC", "Price (incl. tax)", "Price (excl. tax)", "Availability"]

/-- A concrete key/value table as on a real detail page. -/
def sampleTable : List (String × Option String) :=
  [("UPC", some "a897fe39b1053632"),
   ("Product Type", some "Books"),
   ("Price (excl. tax)", some "£51.77"),
   ("Price (incl. tax)", some "£51.77"),
   ("Tax", some "£0.00"),
   ("Availability", some "In stock (22 available)"),
   ("Number of reviews", some "0")]

/-- A concrete well-formed detail page. -/
def sampleSoup : BookSoup :=
  { table := some sampleTable,
    titleText := some "A Light in the Attic",
    descriptionSibling := some "A description.",
    ratingClasses := some ["star-rating", "Three"],
    breadcrumb := some ["Home", "Books", "Poetry", "A Light in the Attic"],
    imageSrc := some "../../media/cache/fe/72/fe72f0e4a.jpg" }

/-- The sample detail page URL. -/
def sampleUrl : String :=
  "https://books.toscrape.com/catalogue/a-light-in-the-attic_1000/index.html"

/-- The record extracted from `sampleSoup` (with the join that returns the
relative href unchanged). -/
def sampleRecord : ProductData :=
  { product_page_url := sampleUrl,
    universal_product_code := "a897fe39b1053632",
    title := "A Light in the Attic",
    price_including_tax := { mantissa := 5177, exp := 2 },
    price_excluding_tax := { mantissa := 5177, exp := 2 },
    number_available := NumAvail.count 22,
    product_description := "A description.",
    category := "Poetry",
    review_rating := 3,
    image_url := "../../media/cache/fe/72/fe72f0e4a.jpg" }

/-- The sample page with an unrecognized class listed before the number
word in the rating marker's class list. -/
def c3Soup : BookSoup :=
  { sampleSoup with ratingClasses := some ["star-rating", "foo", "Three"] }

/-- The record extracted from `c3Soup`. -/
def c3Record : ProductData :=
  { sampleRecord with review_rating := 0 }

/-- A key/value table lacking the required `UPC` row. -/
def c4Table : List (String × Option String) :=
  [("Product Type", some "Books"),
   ("Price (excl. tax)", some "£51.77"),
   ("Price (incl. tax)", some "£51.77"),
   ("Availability", some "In stock (22 available)")]

/-- The sample page with its table missing the `UPC` row. -/
def c4Soup : BookSoup :=
  { sampleSoup with table := some c4Table }

/-- An HTTP response as `fetch_page` sees it: status code and body text. -/
structure PageResponse where
  status : Nat
  text : String
deriving DecidableEq

/-- `fetch_page(url)` from `src/phase1/scraper.py`: run `requests.get`; on a
raised `RequestException` re-raise a `RuntimeError` naming the URL and the
cause; otherwise parse the body with BeautifulSoup (the external
collaborator `parse`) and return the document. The response status is never
inspected. -/
def fetch_page (Soup : Type) (parse : String → Soup)
    (transport : String → Except String PageResponse) (url : String) :
    Except String Soup :=
  match transport url with
  | .ok r => .ok (parse r.text)
  | .error e =>
      .error ("[ERREUR] Echec lors de la récupération de l\x27URL : " ++ url ++ "\n-> " ++ e)

/-- A transport returning a 404 error page with a body. -/
def transport404 : String → Except String PageResponse :=
  fun _ => Except.ok { status := 404, text := "<html>Not Found</html>" }

/-- A category-listing transport answering 404 to every request. -/
def site404 : Transport :=
  fun _ => Except.ok { status := 404, page := { articles := [], nextHref := none } }

/-! ## Record writers (`src/utils/saver.py`, `src/phase2/scraper_category.py`) -/

/-- Outcome of opening and writing the target CSV file, the environment the
writer runs against: success, a `PermissionError` (the file is exclusively
locked by another process), or any other `OSError`. -/
inductive WriteOutcome where
  | success
  | permissionDenied
  | ioError (msg : String)
deriving DecidableEq

/-- The observable file-system and console effects of one writer call:
directories created by `os.makedirs`, the file written (path, header row,
data rows), and the messages printed. -/
structure FsTrace where
  dirsCreated : List String
  fileWritten : Option (String × List String × List (List String))
  messages : List String
deriving DecidableEq

/-- `book_data["title"]`: look up the `title` key of the record dict. -/
def dictTitle (d : List (String × String)) : Option String :=
  (d.find? (fun kv => kv.1 == "title")).map (fun kv => kv.2)

/-- `save_to_csv(book_data, folder)` from `src/utils/saver.py`. The record
is an ordered dict of string fields. `clean_filename` is the sanitizer from
`utils/cleaner.py`, which is not part of the sources; modelled from the
spec as an arbitrary sanitizing function. `dateToday` is the module-level
`DATE_TODAY` rendered as text. `os.makedirs(..., exist_ok=True)` is
modelled as always succeeding; `env` is the outcome of opening and writing
the file. A missing `title` key raises `KeyError`, which the generic
`except Exception` handler turns into a printed message; `PermissionError`
is re-raised with an actionable message naming `csv_path`; any other
failure is printed and the function returns `None`. On success the
function returns the generated file name. -/
def save_to_csv (clean_filename : String → String) (dateToday : String)
    (env : WriteOutcome) (phase1_dir : String) (book_data : List (String × String))
    (folder : String) : FsTrace × Except String (Option String) :=
  let csv_path := phase1_dir ++ "/" ++ folder
  match dictTitle book_data with
  | none =>
      ({ dirsCreated := [csv_path], fileWritten := none,
         messages := ["[ERREUR] Impossible d\x27enregistrer le fichier CSV :\n-> KeyError: \x27title\x27"] },
       Except.ok none)
  | some title =>
      let clean_title := clean_filename title
      let csv_fieldname := clean_title ++ "_" ++ dateToday ++ ".csv"
      let csv_file := csv_path ++ "/" ++ csv_fieldname
      match env with
      | .success =>
          ({ dirsCreated := [csv_path],
             fileWritten := some (csv_file, book_data.map (fun kv => kv.1),
               [book_data.map (fun kv => kv.2)]),
             messages := ["\nLes données du livre : \x27" ++ title ++
               "\x27 ont étaient exportées vers " ++ csv_file] },
           Except.ok (some csv_fieldname))
      | .permissionDenied =>
          ({ dirsCreated := [csv_path], fileWritten := none, messages := [] },
           Except.error ("[ERREUR] Le fichier est déjà ouvert ailleurs (ex: Excel). Ferme-le pour pouvoir sauvegarder : " ++ csv_path))
      | .ioError msg =>
          ({ dirsCreated := [csv_path], fileWritten := none,
             messages := ["[ERREUR] Impossible d\x27enregistrer le fichier CSV :\n-> " ++ msg] },
           Except.ok none)

/-- `save_category_to_csv(data_list, category_name)` from
`src/utils/saver.py`: a no-op apart from an informational message on an
empty record list; otherwise create the `CSV` directory under the phase2
directory and write a header row (keys of the first record) plus one row
per record. `PermissionError` is re-raised with an actionable message
naming the (reassigned) `csv_path`, i.e. the file path; any other failure
is printed and swallowed. -/
def save_category_to_csv (dateToday : String) (env : WriteOutcome) (phase2_dir : String)
    (data_list : List (List (String × String))) (category_name : String) :
    FsTrace × Except String Unit :=
  if data_list.isEmpty then
    ({ dirsCreated := [], fileWritten := none,
       messages := ["[INFO] Aucun livre à enregistrer."] },
     Except.ok ())
  else
    let csv_path := phase2_dir ++ "/CSV"
    let csv_fieldname := "products_category_" ++ category_name ++ "_" ++ dateToday ++ ".csv"
    let csv_file := csv_path ++ "/" ++ csv_fieldname
    match env with
    | .success =>
        ({ dirsCreated := [csv_path],
           fileWritten := some (csv_file, (data_list.headD []).map (fun kv => kv.1),
             data_list.map (fun row => row.map (fun kv => kv.2))),
           messages := ["[SAUVEGARDE] " ++ toString data_list.length ++
             " livres enregistrés dans : " ++ csv_file] },
         Except.ok ())
    | .permissionDenied =>
        ({ dirsCreated := [csv_path], fileWritten := none, messages := [] },
         Except.error ("[ERREUR] Le fichier est déjà ouvert ailleurs (ex: Excel). Ferme-le pour pouvoir sauvegarder : " ++ csv_file))
    | .ioError msg =>
        ({ dirsCreated := [csv_path], fileWritten := none,
           messages := ["[ERREUR] Échec lors de l\x27écriture du fichier CSV : " ++ msg] },
         Except.ok ())

/-- The duplicate `save_category_to_csv` defined inside
`src/phase2/scraper_category.py` (the one the phase2 `main` actually
calls): identical to the saver version except that its single
`except Exception` handler also swallows `PermissionError`, so it never
raises. -/
def phase2_save_category_to_csv (dateToday : String) (env : WriteOutcome)
    (phase2_dir : String) (data_list : List (List (String × String)))
    (category_name : String) : FsTrace × Except String Unit :=
  if data_list.isEmpty then
    ({ dirsCreated := [], fileWritten := none,
       messages := ["[INFO] Aucun livre à enregistrer."] },
     Except.ok ())
  else
    let csv_path := phase2_dir ++ "/CSV"
    let csv_fieldname := "products_category_" ++ category_name ++ "_" ++ dateToday ++ ".csv"
    let csv_file := csv_path ++ "/" ++ csv_fieldname
    match env with
    | .success =>
        ({ dirsCreated := [csv_path],
           fileWritten := some (csv_file, (data_list.headD []).map (fun kv => kv.1),
             data_list.map (fun row => row.map (fun kv => kv.2))),
           messages := ["[SAUVEGARDE] " ++ toString data_list.length ++
             " livres enregistrés dans : CSV/" ++ csv_fieldname] },
         Except.ok ())
    | .permissionDenied =>
        ({ dirsCreated := [csv_path], fileWritten := none,
           messages := ["[ERREUR] Échec lors de l\x27écriture du fichier CSV : PermissionError"] },
         Except.ok ())
    | .ioError msg =>
        ({ dirsCreated := [csv_path], fileWritten := none,
           messages := ["[ERREUR] Échec lors de l\x27écriture du fichier CSV : " ++ msg] },
         Except.ok ())

/-- A one-field concrete book record. -/
def book1 : List (String × String) :=
  [("title", "A Light in the Attic"), ("category", "Poetry")]

/-- A one-record concrete category data list. -/
def data1 : List (List (String × String)) := [book1]

/-! ## Lemmas about the pagination loop -/

lemma crawlAux_zero (t : Transport) (j : String → String → String) (u : String)
    (acc : List String) : crawlAux t j 0 u acc = .fuelOut := rfl

lemma crawlAux_succ_next (t : Transport) (j : String → String → String) (fuel : Nat)
    (u : String) (acc : List String) (r : CatResponse) (nx : String)
    (hok : t u = Except.ok r) (hst : ¬(400 ≤ r.status ∧ r.status < 600))
    (hart : r.page.articles ≠ []) (hnx : r.page.nextHref = some nx) :
    crawlAux t j (fuel + 1) u acc =
      crawlAux t j fuel (j u nx) (acc ++ pageItemUrls r.page) := by
  simp [crawlAux, hok, hst, List.isEmpty_iff, hart, hnx]

lemma crawlAux_succ_last (t : Transport) (j : String → String → String) (fuel : Nat)
    (u : String) (acc : List String) (r : CatResponse)
    (hok : t u = Except.ok r) (hst : ¬(400 ≤ r.status ∧ r.status < 600))
    (hart : r.page.articles ≠ []) (hnx : r.page.nextHref = none) :
    crawlAux t j (fuel + 1) u acc = .ok (acc ++ pageItemUrls r.page) := by
  simp [crawlAux, hok, hst, List.isEmpty_iff, hart, hnx]

lemma crawlAux_chain {t : Transport} {j : String → String → String} {url : String}
    {pages : List CatPage} (hchain : PageChain t j url pages)
    (hne : ∀ p ∈ pages, p.articles ≠ []) :
    ∀ fuel acc, pages.length ≤ fuel →
      crawlAux t j fuel url acc = .ok (acc ++ (pages.map pageItemUrls).flatten) := by
  induction hchain with
  | last u r hok hst hnext =>
      intro fuel acc hfuel
      cases fuel with
      | zero => simp at hfuel
      | succ f =>
          rw [crawlAux_succ_last t j f u acc r hok hst (hne _ (by simp)) hnext]
          simp
  | step u r h ps hok hst hnext _ ih =>
      intro fuel acc hfuel
      cases fuel with
      | zero => simp at hfuel
      | succ f =>
          rw [crawlAux_succ_next t j f u acc r h hok hst (hne _ (by simp)) hnext]
          rw [ih (fun p hp => hne p (List.mem_cons_of_mem _ hp)) f _ (by simpa using hfuel)]
          simp

lemma filterMap_map_length {α β : Type} (f : α → β) (l : List (Option α))
    (h : ∀ a ∈ l, a.isSome) :
    (l.filterMap (fun a => a.map f)).length = l.length := by
  induction l with
  | nil => rfl
  | cons a l ih =>
      have ha := h a (by simp)
      match a, ha with
      | some x, _ =>
          simp only [List.filterMap_cons, Option.map_some', List.length_cons]
          rw [ih (fun b hb => h b (by simp [hb]))]

lemma pageItemUrls_length {p : CatPage} (h : ∀ a ∈ p.articles, a.isSome) :
    (pageItemUrls p).length = p.articles.length :=
  filterMap_map_length _ _ h

lemma mem_pageItemUrls {u : String} {p : CatPage} (h : u ∈ pageItemUrls p) :
    ∃ href, u = catalogueRoot ++ removeDotDot href := by
  simp only [pageItemUrls, List.mem_filterMap, Option.map_eq_some'] at h
  obtain ⟨a, _, href, _, heq⟩ := h
  exact ⟨href, heq.symm⟩

lemma crawlAux_all_next (t : Transport) (j : String → String → String)
    (hall : ∀ u, ∃ r, t u = Except.ok r ∧ ¬(400 ≤ r.status ∧ r.status < 600) ∧
      r.page.articles ≠ [] ∧ r.page.nextHref.isSome) :
    ∀ fuel url acc, crawlAux t j fuel url acc = .fuelOut := by
  intro fuel
  induction fuel with
  | zero => intro url acc; rfl
  | succ f ih =>
      intro url acc
      obtain ⟨r, hok, hst, hne, hnx⟩ := hall url
      obtain ⟨h, hh⟩ := Option.isSome_iff_exists.mp hnx
      rw [crawlAux_succ_next t j f url acc r h hok hst hne hh]
      exact ih _ _

lemma crawlAux_ok_last (t : Transport) (j : String → String → String) :
    ∀ fuel url acc out, crawlAux t j fuel url acc = .ok out →
      ∃ u r, t u = Except.ok r ∧ r.page.nextHref = none := by
  intro fuel
  induction fuel with
  | zero => intro url acc out h; simp [crawlAux_zero] at h
  | succ f ih =>
      intro url acc out h
      cases hok : t url with
      | error e => simp [crawlAux, hok] at h
      | ok r =>
          by_cases hst : 400 ≤ r.status ∧ r.status < 600
          · simp [crawlAux, hok, hst] at h
          · by_cases hart : r.page.articles = []
            · simp [crawlAux, hok, hst, List.isEmpty_iff, hart] at h
            · cases hnx : r.page.nextHref with
              | some nx =>
                  rw [crawlAux_succ_next t j f url acc r nx hok hst hart hnx] at h
                  exact ih _ _ _ h
              | none => exact ⟨url, r, hok, hnx⟩

lemma crawlAux_ok_mem (t : Transport) (j : String → String → String) :
    ∀ fuel url acc out, crawlAux t j fuel url acc = .ok out →
      ∀ u ∈ out, u ∈ acc ∨ ∃ href, u = catalogueRoot ++ removeDotDot href := by
  intro fuel
  induction fuel with
  | zero => intro url acc out h; simp [crawlAux_zero] at h
  | succ f ih =>
      intro url acc out h v hv
      cases hok : t url with
      | error e => simp [crawlAux, hok] at h
      | ok r =>
          by_cases hst : 400 ≤ r.status ∧ r.status < 600
          · simp [crawlAux, hok, hst] at h
          · by_cases hart : r.page.articles = []
            · simp [crawlAux, hok, hst, List.isEmpty_iff, hart] at h
            · cases hnx : r.page.nextHref with
              | some nx =>
                  rw [crawlAux_succ_next t j f url acc r nx hok hst hart hnx] at h
                  rcases ih _ _ _ h v hv with hmem | hbuilt
                  · rcases List.mem_append.mp hmem with hacc | hpage
                    · exact Or.inl hacc
                    · exact Or.inr (mem_pageItemUrls hpage)
                  · exact Or.inr hbuilt
              | none =>
                  rw [crawlAux_succ_last t j f url acc r hok hst hart hnx] at h
                  cases h
                  rcases List.mem_append.mp hv with hacc | hpage
                  · exact Or.inl hacc
                  · exact Or.inr (mem_pageItemUrls hpage)

/-! ## Claim theorems about the category crawler -/

/-- C1: over a category listing whose pages form a fetch chain (each fetch
successful with a passing status, followed through the `next` link until a
page has none), with every page non-empty and every item link extractable,
`fetch_category_urls` returns exactly the concatenation of the per-page item
URLs, in page order then in-page order, and its length is the total number
of item summary nodes. -/
theorem c1_category_crawl_collects_all {t : Transport} {j : String → String → String}
    {url : String} {pages : List CatPage} {fuel : Nat}
    (hchain : PageChain t j url pages)
    (hne : ∀ p ∈ pages, p.articles ≠ [])
    (hsome : ∀ p ∈ pages, ∀ a ∈ p.articles, a.isSome)
    (hfuel : pages.length ≤ fuel) :
    fetch_category_urls t j fuel url = .ok ((pages.map pageItemUrls).flatten) ∧
      ((pages.map pageItemUrls).flatten).length =
        (pages.map (fun p => p.articles.length)).sum := by
  constructor
  · have := crawlAux_chain hchain hne fuel [] hfuel
    simpa [fetch_category_urls] using this
  · rw [List.length_flatten, List.map_map]
    congr 1
    exact List.map_congr_left fun p hp => pageItemUrls_length (hsome p hp)

/-- Witness for C1 on a concrete two-page site with three items in total. -/
theorem c1_category_crawl_collects_all_witness :
    fetch_category_urls twoPageSite (fun _ rel => rel) 2 "mystery_3/index.html" =
      .ok (([catPage1, catPage2].map pageItemUrls).flatten) ∧
      (([catPage1, catPage2].map pageItemUrls).flatten).length =
        ([catPage1, catPage2].map (fun p => p.articles.length)).sum :=
  c1_category_crawl_collects_all
    (PageChain.step "mystery_3/index.html" { status := 200, page := catPage1 } "page-2.html"
      [catPage2] rfl (by decide) rfl
      (PageChain.last "page-2.html" { status := 200, page := catPage2 }
        rfl (by decide) rfl))
    (by decide) (by decide) (by decide)

/-- C5: the pagination loop has no page bound and no cycle detection: on a
site where every fetch succeeds with a non-empty page offering a `next`
link, the loop exhausts any amount of fuel (it never terminates), and a
normal return of the URL list only ever happens after some fetched page
lacks a `next` link. -/
theorem c5_pagination_termination :
    (∀ (t : Transport) (j : String → String → String),
      (∀ u, ∃ r, t u = Except.ok r ∧ ¬(400 ≤ r.status ∧ r.status < 600) ∧
        r.page.articles ≠ [] ∧ r.page.nextHref.isSome) →
      ∀ fuel url, fetch_category_urls t j fuel url = .fuelOut) ∧
    (∀ (t : Transport) (j : String → String → String) (fuel : Nat) (url : String)
      (out : List String),
      fetch_category_urls t j fuel url = .ok out →
      ∃ u r, t u = Except.ok r ∧ r.page.nextHref = none) := by
  constructor
  · intro t j hall fuel url
    exact crawlAux_all_next t j hall fuel url []
  · intro t j fuel url out h
    exact crawlAux_ok_last t j fuel url [] out h

/-- Witness for C5: a concrete always-`next` site exhausts the fuel, and a
concrete terminating run exhibits a page without a `next` link. -/
theorem c5_pagination_termination_witness :
    fetch_category_urls loopSite (fun _ rel => rel) 5 "start" = .fuelOut ∧
      ∃ u r, endSite u = Except.ok r ∧ r.page.nextHref = none :=
  ⟨c5_pagination_termination.1 loopSite (fun _ rel => rel)
      (fun _ => ⟨loopResponse, rfl, by decide, by decide, rfl⟩) 5 "start",
   c5_pagination_termination.2 endSite (fun _ rel => rel) 1 "start"
      ["https://books.toscrape.com/catalogue/b_1/index.html"] (by decide)⟩

/-- C10: every URL a successful crawl returns is the fixed catalog-root
prefix `https://books.toscrape.com/catalogue/` followed by an item href with
its `../` occurrences removed, whatever the current page URL and the join
function; and `removeDotDot` removes every occurrence of `../`. -/
theorem c10_catalogue_prefix :
    (∀ (t : Transport) (j : String → String → String) (fuel : Nat) (url : String)
      (out : List String),
      fetch_category_urls t j fuel url = .ok out →
      ∀ u ∈ out, ∃ href, u = catalogueRoot ++ removeDotDot href) ∧
    removeDotDot "../../a-light-in-the-attic_1000/index.html" =
      "a-light-in-the-attic_1000/index.html" := by
  constructor
  · intro t j fuel url out h u hu
    rcases crawlAux_ok_mem t j fuel url [] out h u hu with hacc | hbuilt
    · simp at hacc
    · exact hbuilt
  · rfl

/-- Witness for C10 on a concrete successful crawl. -/
theorem c10_catalogue_prefix_witness :
    ∃ href, "https://books.toscrape.com/catalogue/b_1/index.html" =
      catalogueRoot ++ removeDotDot href :=
  c10_catalogue_prefix.1 endSite (fun _ rel => rel) 1 "start"
    ["https://books.toscrape.com/catalogue/b_1/index.html"] (by decide)
    "https://books.toscrape.com/catalogue/b_1/index.html" (by decide)

/-! ## Lemmas about the record extractor -/

lemma mapError_eq_error {ε ε' α : Type} {f : ε → ε'} {x : Except ε α} {e : ε'}
    (h : Except.mapError f x = Except.error e) :
    ∃ c, x = Except.error c ∧ e = f c := by
  cases x with
  | error c =>
      refine ⟨c, rfl, ?_⟩
      simp [Except.mapError] at h
      exact h.symm
  | ok a => simp [Except.mapError] at h

lemma extract_ok_inversion {join : String → String → String} {soup : BookSoup}
    {url : String} {rec : ProductData}
    (h : extract_book_data join soup url = Except.ok rec) :
    (∃ s, get_table_value soup.table "Availability" = Except.ok s ∧
      rec.number_available = numberAvailOf s) ∧
    rec.review_rating = ratingOf soup.ratingClasses ∧
    ∀ lbl ∈ requiredLabels, ∃ v, get_table_value soup.table lbl = Except.ok v := by
  unfold extract_book_data at h
  cases ht : soup.titleText with
  | none => simp only [ht, Except.mapError] at h; exact Except.noConfusion h
  | some title =>
  simp only [ht] at h
  cases ha : get_table_value soup.table "Availability" with
  | error e => simp only [ha, Except.mapError] at h; exact Except.noConfusion h
  | ok availability =>
  simp only [ha] at h
  cases hu : get_table_value soup.table "UPC" with
  | error e => simp only [hu, Except.mapError] at h; exact Except.noConfusion h
  | ok upc =>
  simp only [hu] at h
  cases hp1 : get_table_value soup.table "Price (incl. tax)" with
  | error e => simp only [hp1, Except.mapError] at h; exact Except.noConfusion h
  | ok praw1 =>
  simp only [hp1] at h
  cases hf1 : pyFloat (stripPound praw1) with
  | none => simp only [hf1, Except.mapError] at h; exact Except.noConfusion h
  | some price1 =>
  simp only [hf1] at h
  cases hp2 : get_table_value soup.table "Price (excl. tax)" with
  | error e => simp only [hp2, Except.mapError] at h; exact Except.noConfusion h
  | ok praw2 =>
  simp only [hp2] at h
  cases hf2 : pyFloat (stripPound praw2) with
  | none => simp only [hf2, Except.mapError] at h; exact Except.noConfusion h
  | some price2 =>
  simp only [hf2] at h
  cases hb : soup.breadcrumb with
  | none => simp only [hb, Except.mapError] at h; exact Except.noConfusion h
  | some crumbs =>
  simp only [hb] at h
  cases hc : crumbs.get? 2 with
  | none => simp only [hc, Except.mapError] at h; exact Except.noConfusion h
  | some third =>
  simp only [hc] at h
  cases hi : soup.imageSrc with
  | none => simp only [hi, Except.mapError] at h; exact Except.noConfusion h
  | some src =>
  simp only [hi, Except.mapError, Except.ok.injEq] at h
  refine ⟨⟨availability, rfl, ?_⟩, ?_, ?_⟩
  · rw [← h]
  · rw [← h]
  · intro lbl hl
    simp only [requiredLabels, List.mem_cons, List.not_mem_nil, or_false] at hl
    rcases hl with rfl | rfl | rfl | rfl
    · exact ⟨upc, hu⟩
    · exact ⟨praw1, hp1⟩
    · exact ⟨praw2, hp2⟩
    · exact ⟨availability, ha⟩

lemma extract_error_shape {join : String → String → String} {soup : BookSoup}
    {url e : String} (h : extract_book_data join soup url = Except.error e) :
    ∃ cause, e = "[ERREUR] Échec de l\x27extraction depuis " ++ url ++ " : " ++ cause := by
  unfold extract_book_data at h
  obtain ⟨c, -, hc⟩ := mapError_eq_error h
  exact ⟨c, hc⟩

lemma get_table_value_missing {rows : List (String × Option String)} {lbl : String}
    (habs : ∀ row ∈ rows, row.1 ≠ lbl) :
    get_table_value (some rows) lbl =
      Except.error ("[ERREUR] champ \x27" ++ lbl ++ "\x27 introuvable dans le tableau") := by
  have hnone : rows.find? (fun row => row.1 == lbl) = none :=
    List.find?_eq_none.mpr (fun row hr => by simpa using habs row hr)
  simp only [get_table_value, hnone]

lemma review_rating_map_le_five (t : String) : review_rating_map t ≤ 5 := by
  unfold review_rating_map
  split <;> omega

/-! ## Claim theorems about the record extractor -/

/-- C2: the availability pattern on `"In stock (22 available)"` stores the
integer 22 in `number_available`; whenever the pattern matches it stores the
matched count, whenever it does not match it stores the sentinel string
`"Nombre non trouvé"` (a total computation, never a raised exception); and
every successfully extracted record carries exactly this value of the
`Availability` table cell. -/
theorem c2_number_available :
    numberAvailOf "In stock (22 available)" = NumAvail.count 22 ∧
    (∀ s n, availMatch s = some n → numberAvailOf s = NumAvail.count n) ∧
    (∀ s, availMatch s = none → numberAvailOf s = NumAvail.sentinel "Nombre non trouvé") ∧
    (∀ (join : String → String → String) (soup : BookSoup) (url : String) (rec : ProductData),
      extract_book_data join soup url = Except.ok rec →
      ∃ s, get_table_value soup.table "Availability" = Except.ok s ∧
        rec.number_available = numberAvailOf s) := by
  refine ⟨by decide, ?_, ?_, ?_⟩
  · intro s n h; unfold numberAvailOf; rw [h]
  · intro s h; unfold numberAvailOf; rw [h]
  · intro join soup url rec h; exact (extract_ok_inversion h).1

/-- Witness for C2: a matching and a non-matching availability string, and
the sample page's extracted record. -/
theorem c2_number_available_witness :
    numberAvailOf "In stock (3 available)" = NumAvail.count 3 ∧
    numberAvailOf "In stock" = NumAvail.sentinel "Nombre non trouvé" ∧
    ∃ s, get_table_value sampleSoup.table "Availability" = Except.ok s ∧
      sampleRecord.number_available = numberAvailOf s :=
  ⟨c2_number_available.2.1 "In stock (3 available)" 3 (by decide),
   c2_number_available.2.2.1 "In stock" (by decide),
   c2_number_available.2.2.2 (fun _ rel => rel) sampleSoup sampleUrl sampleRecord (by rfl)⟩

/-- C3 counterexample: the class list `["star-rating", "foo", "Three"]`
contains `star-rating` together with the recognized word `Three`, yet the
extracted record's rating is 0, not 3, because the code decodes only the
first class different from `star-rating`. -/
theorem c3_rating_counterexample :
    "star-rating" ∈ ["star-rating", "foo", "Three"] ∧
    "Three" ∈ ["star-rating", "foo", "Three"] ∧
    review_rating_map "Three" = 3 ∧
    extract_book_data (fun _ rel => rel) c3Soup sampleUrl = Except.ok c3Record ∧
    c3Record.review_rating = 0 ∧
    c3Record.review_rating ≠ 3 :=
  ⟨by decide, by decide, by decide, by rfl, by decide, by decide⟩

/-- C3 (amended): the rating is decoded from the first class different from
`star-rating`, capitalized, through the fixed lookup table (`Three` in that
position gives 3); a class list with no recognized encoding, or an absent
marker node, gives 0; and the rating is always at most 5. -/
theorem c3_rating_decoding :
    (∀ (join : String → String → String) (soup : BookSoup) (url : String) (rec : ProductData),
      extract_book_data join soup url = Except.ok rec →
      rec.review_rating = ratingOf soup.ratingClasses) ∧
    ratingOf (some ["star-rating", "Three"]) = 3 ∧
    (∀ l, (∀ c ∈ l, review_rating_map (pyCapitalize c) = 0) → ratingOf (some l) = 0) ∧
    ratingOf none = 0 ∧
    ∀ o, ratingOf o ≤ 5 := by
  refine ⟨?_, by decide, ?_, by decide, ?_⟩
  · intro join soup url rec h; exact (extract_ok_inversion h).2.1
  · intro l hl
    unfold ratingOf
    cases hf : l.find? (fun cls => cls != "star-rating") with
    | none => simp [hf, review_rating_map]
    | some c =>
        have hc : c ∈ l := List.mem_of_find?_eq_some hf
        simp [hf, hl c hc]
  · intro o
    exact review_rating_map_le_five _

/-- Witness for C3 (amended): the sample page's record, and an unrecognized
class list decoding to 0. -/
theorem c3_rating_decoding_witness :
    sampleRecord.review_rating = ratingOf sampleSoup.ratingClasses ∧
    ratingOf (some ["star-rating", "foo"]) = 0 :=
  ⟨c3_rating_decoding.1 (fun _ rel => rel) sampleSoup sampleUrl sampleRecord (by rfl),
   c3_rating_decoding.2.2.1 ["star-rating", "foo"] (by decide)⟩

/-- C4: when the key/value table lacks a required row label, extraction
yields a single wrapped error whose message names the source URL and the
underlying cause, and no record is returned. -/
theorem c4_missing_label_fails (join : String → String → String) (soup : BookSoup)
    (url lbl : String) (rows : List (String × Option String))
    (hreq : lbl ∈ requiredLabels) (htab : soup.table = some rows)
    (habs : ∀ row ∈ rows, row.1 ≠ lbl) :
    (∃ cause, extract_book_data join soup url =
      Except.error ("[ERREUR] Échec de l\x27extraction depuis " ++ url ++ " : " ++ cause)) ∧
    ∀ rec, extract_book_data join soup url ≠ Except.ok rec := by
  have hmiss : get_table_value soup.table lbl =
      Except.error ("[ERREUR] champ \x27" ++ lbl ++ "\x27 introuvable dans le tableau") := by
    rw [htab]; exact get_table_value_missing habs
  have hnok : ∀ rec, extract_book_data join soup url ≠ Except.ok rec := by
    intro rec h
    obtain ⟨-, -, hlabels⟩ := extract_ok_inversion h
    obtain ⟨v, hv⟩ := hlabels lbl hreq
    rw [hmiss] at hv
    exact absurd hv (by simp)
  refine ⟨?_, hnok⟩
  cases hE : extract_book_data join soup url with
  | ok rec => exact absurd hE (hnok rec)
  | error e =>
      obtain ⟨cause, hc⟩ := extract_error_shape hE
      exact ⟨cause, by rw [hc]⟩

/-- Witness for C4: the sample page with its `UPC` row removed. -/
theorem c4_missing_label_fails_witness :
    (∃ cause, extract_book_data (fun _ rel => rel) c4Soup sampleUrl =
      Except.error ("[ERREUR] Échec de l\x27extraction depuis " ++ sampleUrl ++ " : " ++ cause)) ∧
    ∀ rec, extract_book_data (fun _ rel => rel) c4Soup sampleUrl ≠ Except.ok rec :=
  c4_missing_label_fails (fun _ rel => rel) c4Soup sampleUrl "UPC" c4Table
    (by decide) rfl (by decide)

/-! ## Claim theorems about the fetcher and the writers -/

/-- C9: `fetch_page` never inspects the response status: any delivered
response, a 404 error page included, yields the parsed document of its
body; the wrapped fetch failure naming the URL and the cause arises exactly
when the transport itself raises. The category crawler, by contrast, turns
a 4xx/5xx response into a raised error. -/
theorem c9_fetch_page_no_status_check :
    (∀ (Soup : Type) (parse : String → Soup)
      (transport : String → Except String PageResponse) (url : String) (r : PageResponse),
      transport url = Except.ok r →
      fetch_page Soup parse transport url = Except.ok (parse r.text)) ∧
    (∀ (Soup : Type) (parse : String → Soup)
      (transport : String → Except String PageResponse) (url e : String),
      transport url = Except.error e →
      fetch_page Soup parse transport url =
        Except.error ("[ERREUR] Echec lors de la récupération de l\x27URL : " ++ url ++
          "\n-> " ++ e)) ∧
    (∀ (t : Transport) (j : String → String → String) (fuel : Nat) (url : String)
      (r : CatResponse), t url = Except.ok r → 400 ≤ r.status → r.status < 600 →
      fetch_category_urls t j (fuel + 1) url =
        .err ("[ERREUR HTTP] Impossible de récupérer la page " ++ url ++ " : " ++
          httpStatusError r.status url)) := by
  refine ⟨?_, ?_, ?_⟩
  · intro Soup parse transport url r h
    simp [fetch_page, h]
  · intro Soup parse transport url e h
    simp [fetch_page, h]
  · intro t j fuel url r h h4 h6
    have hcond : 400 ≤ r.status ∧ r.status < 600 := ⟨h4, h6⟩
    simp [fetch_category_urls, crawlAux, h, hcond]

/-- Witness for C9: a transport answering 404 everywhere. -/
theorem c9_fetch_page_no_status_check_witness :
    fetch_page String (fun s => s) transport404 "u404" = Except.ok "<html>Not Found</html>" ∧
    fetch_category_urls site404 (fun _ rel => rel) 1 "u404" =
      .err ("[ERREUR HTTP] Impossible de récupérer la page u404 : " ++
        httpStatusError 404 "u404") :=
  ⟨c9_fetch_page_no_status_check.1 String (fun s => s) transport404 "u404"
      { status := 404, text := "<html>Not Found</html>" } rfl,
   c9_fetch_page_no_status_check.2.2 site404 (fun _ rel => rel) 0 "u404"
      { status := 404, page := { articles := [], nextHref := none } } rfl
      (by decide) (by decide)⟩

/-- C6: both category writers, given an empty record list, create no
directory, write no file, and print only the informational message before
returning normally. -/
theorem c6_empty_save_noop (dateToday : String) (env : WriteOutcome)
    (phase2_dir category_name : String) :
    save_category_to_csv dateToday env phase2_dir [] category_name =
      ({ dirsCreated := [], fileWritten := none,
         messages := ["[INFO] Aucun livre à enregistrer."] }, Except.ok ()) ∧
    phase2_save_category_to_csv dateToday env phase2_dir [] category_name =
      ({ dirsCreated := [], fileWritten := none,
         messages := ["[INFO] Aucun livre à enregistrer."] }, Except.ok ()) :=
  ⟨rfl, rfl⟩

/-- C7: in both writer modes an exclusively locked target file surfaces as
the specific raised "file in use" condition, while any other write failure
is only logged, the call returns normally and no file is recorded as
written; the two conditions are distinguishable by the caller. -/
theorem c7_lock_vs_io :
    (∀ (clean_filename : String → String) (dateToday phase1_dir folder title : String)
      (book_data : List (String × String)), dictTitle book_data = some title →
      (save_to_csv clean_filename dateToday .permissionDenied phase1_dir book_data folder).2 =
        Except.error ("[ERREUR] Le fichier est déjà ouvert ailleurs (ex: Excel). Ferme-le pour pouvoir sauvegarder : " ++
          (phase1_dir ++ "/" ++ folder))) ∧
    (∀ (clean_filename : String → String) (dateToday phase1_dir folder msg : String)
      (book_data : List (String × String)),
      (save_to_csv clean_filename dateToday (.ioError msg) phase1_dir book_data folder).2 =
        Except.ok none ∧
      (save_to_csv clean_filename dateToday (.ioError msg) phase1_dir book_data
        folder).1.fileWritten = none) ∧
    (∀ (dateToday phase2_dir category_name : String)
      (data_list : List (List (String × String))), data_list ≠ [] →
      ∃ m, (save_category_to_csv dateToday .permissionDenied phase2_dir data_list
        category_name).2 =
        Except.error ("[ERREUR] Le fichier est déjà ouvert ailleurs (ex: Excel). Ferme-le pour pouvoir sauvegarder : " ++ m)) ∧
    (∀ (dateToday phase2_dir category_name msg : String)
      (data_list : List (List (String × String))),
      (save_category_to_csv dateToday (.ioError msg) phase2_dir data_list category_name).2 =
        Except.ok () ∧
      (save_category_to_csv dateToday (.ioError msg) phase2_dir data_list
        category_name).1.fileWritten = none) ∧
    (∀ (clean_filename : String → String) (dateToday phase1_dir folder title msg : String)
      (book_data : List (String × String)), dictTitle book_data = some title →
      (save_to_csv clean_filename dateToday .permissionDenied phase1_dir book_data folder).2 ≠
        (save_to_csv clean_filename dateToday (.ioError msg) phase1_dir book_data folder).2) := by
  refine ⟨?_, ?_, ?_, ?_, ?_⟩
  · intro clean_filename dateToday phase1_dir folder title book_data ht
    simp [save_to_csv, ht]
  · intro clean_filename dateToday phase1_dir folder msg book_data
    cases ht : dictTitle book_data <;> simp [save_to_csv, ht]
  · intro dateToday phase2_dir category_name data_list hne
    refine ⟨phase2_dir ++ "/CSV" ++ "/" ++
      ("products_category_" ++ category_name ++ "_" ++ dateToday ++ ".csv"), ?_⟩
    simp [save_category_to_csv, List.isEmpty_iff, hne]
  · intro dateToday phase2_dir category_name msg data_list
    by_cases hne : data_list = [] <;> simp [save_category_to_csv, List.isEmpty_iff, hne]
  · intro clean_filename dateToday phase1_dir folder title msg book_data ht
    simp [save_to_csv, ht]

/-- Witness for C7 on concrete writer calls. -/
theorem c7_lock_vs_io_witness :
    (save_to_csv (fun t => t) "2026-10-12" .permissionDenied "phase1" book1 "CSV").2 =
      Except.error ("[ERREUR] Le fichier est déjà ouvert ailleurs (ex: Excel). Ferme-le pour pouvoir sauvegarder : " ++
        ("phase1" ++ "/" ++ "CSV")) ∧
    ∃ m, (save_category_to_csv "2026-10-12" .permissionDenied "phase2" data1 "Mystery").2 =
      Except.error ("[ERREUR] Le fichier est déjà ouvert ailleurs (ex: Excel). Ferme-le pour pouvoir sauvegarder : " ++ m) :=
  ⟨c7_lock_vs_io.1 (fun t => t) "2026-10-12" "phase1" "CSV" "A Light in the Attic" book1 rfl,
   c7_lock_vs_io.2.2.1 "2026-10-12" "phase2" "Mystery" data1 (by decide)⟩

/-- C8: on a successful write, `save_to_csv` returns the generated file
name: the sanitized title followed by the current date. -/
theorem c8_save_returns_filename (clean_filename : String → String)
    (dateToday phase1_dir folder title : String) (book_data : List (String × String))
    (ht : dictTitle book_data = some title) :
    (save_to_csv clean_filename dateToday .success phase1_dir book_data folder).2 =
      Except.ok (some (clean_filename title ++ "_" ++ dateToday ++ ".csv")) := by
  simp [save_to_csv, ht]

/-- Witness for C8 on a concrete record with the identity sanitizer. -/
theorem c8_save_returns_filename_witness :
    (save_to_csv (fun t => t) "2026-10-12" .success "phase1" book1 "CSV").2 =
      Except.ok (some ("A Light in the Attic" ++ "_" ++ "2026-10-12" ++ ".csv")) :=
  c8_save_returns_filename (fun t => t) "2026-10-12" "phase1" "CSV"
    "A Light in the Attic" book1 rfl

end Scraping
